import Mathlib

/-!
# Verification of `src/coord/src/sink_connector.rs`

A shallow embedding of the sink-connector building logic: the Kafka path
(`register_kafka_topic`, `build_kafka`) and the Avro OCF file path
(`build_avro_ocf`), together with the dispatcher `build`.

External collaborators (the Kafka broker's admin interface, the schema
registry, and the filesystem) are modelled as an explicit environment of
responses; every externally visible call the code issues is recorded in an
event trace, so that frame properties ("no create-topics call occurs",
"no compensating deletion is performed") are statable.
-/

deriving instance DecidableEq for Except

namespace SinkConnector

/-- Errors are modelled after `anyhow`: a plain message (`coord_bail!` /
`anyhow!`) or a context message wrapping a cause (`.context` /
`.with_context`). -/
inductive CoordError where
  | msg (s : String)
  | context (s : String) (cause : CoordError)
deriving DecidableEq, Repr

/-- One configuration entry returned by `describe_configs`
(rdkafka `ConfigEntry`): a name and an optional value. -/
structure ConfigEntry where
  name : String
  value : Option String
deriving DecidableEq, Repr

/-- A config resource returned by `describe_configs` (rdkafka
`ConfigResource`): its list of entries. -/
structure ConfigResource where
  entries : List ConfigEntry
deriving DecidableEq, Repr

/-- A filesystem path, modelled as the rendering of its parent directory
plus its optional final file name (Rust `Path::file_name`). -/
structure FsPath where
  parent : String
  fileName : Option String
deriving DecidableEq, Repr

/-- `Path::display` of the modelled path. -/
def FsPath.display (p : FsPath) : String :=
  match p.fileName with
  | some n => p.parent ++ "/" ++ n
  | none => p.parent

/-- `Path::with_file_name`: pop the file name (if any), push the new one. -/
def FsPath.withFileName (p : FsPath) (name : String) : FsPath :=
  { p with fileName := some name }

/-- Rust `std::path`'s `split_file_at_dot` on a file name: the portion
before the last `.` and the portion after it.  A name with no `.`, or whose
only `.` is the leading character, has no extension and is its own stem. -/
def splitFileAtDot (name : String) : String × Option String :=
  let cs := name.toList
  if cs.contains '.' then
    let after := (cs.reverse.takeWhile (· ≠ '.')).reverse
    let before := cs.take (cs.length - after.length - 1)
    if before = [] then (name, none)
    else (String.mk before, some (String.mk after))
  else (name, none)

/-- `Path::file_stem` of the modelled path. -/
def FsPath.fileStem (p : FsPath) : Option String :=
  p.fileName.map (fun n => (splitFileAtDot n).1)

/-- `Path::extension` of the modelled path. -/
def FsPath.extension (p : FsPath) : Option String :=
  p.fileName.bind (fun n => (splitFileAtDot n).2)

/-- Rust `str::parse::<i32>`: optional sign, ASCII digits only, i32 range,
with the `ParseIntError` messages of the standard library. -/
def parseI32 (s : String) : Except String Int :=
  match s.toList with
  | [] => .error "cannot parse integer from empty string"
  | c :: rest =>
    let (neg, digits) :=
      if c = '-' then (true, rest)
      else if c = '+' then (false, rest)
      else (false, c :: rest)
    if digits.isEmpty then .error "invalid digit found in string"
    else if digits.all Char.isDigit then
      let n : Nat := digits.foldl (fun acc c => acc * 10 + (c.toNat - 48)) 0
      if neg then
        if n ≤ 2147483648 then .ok (-(n : Int))
        else .error "number too small to fit in target type"
      else
        if n ≤ 2147483647 then .ok (n : Int)
        else .error "number too large to fit in target type"
    else .error "invalid digit found in string"

/-- Every externally visible call issued by the connector builder.  An event
is recorded when the call is issued, whether or not it succeeds.
`deleteTopic` is in the vocabulary so that the absence of compensating
deletion is a statable frame property; the code never emits it. -/
inductive Event where
  | fetchMetadata
  | describeConfigs (broker : Int)
  | createTopic (topic : String) (partitionCount replicationFactor : Int)
  | publishSchema (subject : String) (schema : String)
  | deleteTopic (topic : String)
  | openCreateNewAppend (path : FsPath)
deriving DecidableEq, Repr

/-- The environment of external responses: what the broker's metadata
request returns (the list of broker ids), what `describe_configs` on a
given broker returns, what `create_topics` for a given (name, partitions,
replication) returns, what the schema registry returns for publishing a
given (subject, schema), and whether rdkafka admin-client construction
succeeds. -/
structure KafkaEnv where
  fetchMetadata : Except String (List Int)
  describeConfigs : Int → Except String (List (Except String ConfigResource))
  createTopics : String → Int → Int → Except String (List (Except String String))
  publishSchema : String → String → Except String Int
  createAdminClient : Except String Unit

/-- The scan over returned broker configuration entries inside
`register_kafka_topic`: `num.partitions` fills the partition count if it is
still `-1`; `default.replication.factor` fills the replication factor if it
is still `-1`; an unparsable matching value aborts. -/
def scanEntries (entries : List ConfigEntry) (partitionCount replicationFactor : Int) :
    Except CoordError (Int × Int) :=
  match entries with
  | [] => .ok (partitionCount, replicationFactor)
  | entry :: rest =>
    if entry.name = "num.partitions" ∧ partitionCount = -1 then
      match entry.value with
      | some s =>
        match parseI32 s with
        | .ok v => scanEntries rest v replicationFactor
        | .error e =>
          .error (.context
            ("default partition count " ++ s ++ " cannot be parsed into an integer")
            (.msg e))
      | none => scanEntries rest partitionCount replicationFactor
    else if entry.name = "default.replication.factor" ∧ replicationFactor = -1 then
      match entry.value with
      | some s =>
        match parseI32 s with
        | .ok v => scanEntries rest partitionCount v
        | .error e =>
          .error (.context
            ("default replication factor " ++ s ++ " cannot be parsed into an integer")
            (.msg e))
      | none => scanEntries rest partitionCount replicationFactor
    else scanEntries rest partitionCount replicationFactor

/-- The default-resolution step of `register_kafka_topic` (lines 50–126):
if either value is the sentinel `-1`, fetch metadata, describe the first
broker's config, scan its entries, and fail if either value is still the
sentinel afterwards. -/
def resolveDefaults (env : KafkaEnv) (topic : String)
    (partitionCount replicationFactor : Int) :
    Except CoordError (Int × Int) × List Event :=
  if partitionCount = -1 ∨ replicationFactor = -1 then
    match env.fetchMetadata with
    | .error e =>
      (.error (.context
        ("error fetching metadata when creating new topic " ++ topic ++ " for sink")
        (.msg e)), [.fetchMetadata])
    | .ok [] =>
      (.error (.msg "zero brokers discovered in metadata request"), [.fetchMetadata])
    | .ok (broker :: _) =>
      match env.describeConfigs broker with
      | .error e =>
        (.error (.context
          ("error fetching configuration from broker " ++ toString broker ++
            " when creating new topic " ++ topic ++ " for sink")
          (.msg e)), [.fetchMetadata, .describeConfigs broker])
      | .ok configs =>
        match configs with
        | [cres] =>
          match cres with
          | .error e =>
            (.error (.msg
              ("error reading broker configuration when creating topic " ++ topic ++
                " for sink: " ++ e)), [.fetchMetadata, .describeConfigs broker])
          | .ok config =>
            match scanEntries config.entries partitionCount replicationFactor with
            | .error e => (.error e, [.fetchMetadata, .describeConfigs broker])
            | .ok (pc, rf) =>
              if pc = -1 then
                (.error (.msg
                  "default was requested for partition_count, but num.partitions was not found in broker config"),
                  [.fetchMetadata, .describeConfigs broker])
              else if rf = -1 then
                (.error (.msg
                  "default was requested for replication_factor, but default.replication.factor was not found in broker config"),
                  [.fetchMetadata, .describeConfigs broker])
              else (.ok (pc, rf), [.fetchMetadata, .describeConfigs broker])
        | _ =>
          (.error (.msg
            ("error creating topic " ++ topic ++ " for sink: broker " ++ toString broker ++
              " returned " ++ toString configs.length ++
              " config results, but one was expected")),
            [.fetchMetadata, .describeConfigs broker])
  else (.ok (partitionCount, replicationFactor), [])

/-- The creation-and-publication tail of `register_kafka_topic`
(lines 128–169): one `create_topics` call for the resolved triple, then
value-schema publication under `<topic>-value`, then, if a key schema was
supplied, key-schema publication under `<topic>-key`. -/
def createAndPublish (env : KafkaEnv) (topic : String)
    (partitionCount replicationFactor : Int)
    (valueSchema : String) (keySchema : Option String) :
    Except CoordError (Option Int × Int) × List Event :=
  let created := Event.createTopic topic partitionCount replicationFactor
  match env.createTopics topic partitionCount replicationFactor with
  | .error e =>
    (.error (.context ("error creating new topic " ++ topic ++ " for sink") (.msg e)),
      [created])
  | .ok [r] =>
    match r with
    | .error e =>
      (.error (.msg ("error creating topic " ++ topic ++ " for sink: " ++ e)), [created])
    | .ok _ =>
      let pubValue := Event.publishSchema (topic ++ "-value") valueSchema
      match env.publishSchema (topic ++ "-value") valueSchema with
      | .error e =>
        (.error (.context "unable to publish value schema to registry in kafka sink"
          (.msg e)), [created, pubValue])
      | .ok valueSchemaId =>
        match keySchema with
        | none => (.ok (none, valueSchemaId), [created, pubValue])
        | some ks =>
          match env.publishSchema (topic ++ "-key") ks with
          | .error e =>
            (.error (.context "unable to publish key schema to registry in kafka sink"
              (.msg e)), [created, pubValue, .publishSchema (topic ++ "-key") ks])
          | .ok keyId =>
            (.ok (some keyId, valueSchemaId),
              [created, pubValue, .publishSchema (topic ++ "-key") ks])
  | .ok res =>
    (.error (.msg
      ("error creating topic " ++ topic ++ " for sink: kafka topic creation returned " ++
        toString res.length ++ " results, but exactly one result was expected")),
      [created])

/-- `register_kafka_topic` (lines 37–170): default resolution, then topic
creation and schema publication.  Returns the
`(key_schema_id, value_schema_id)` pair together with the trace of external
calls issued. -/
def registerKafkaTopic (env : KafkaEnv) (topic : String)
    (partitionCount replicationFactor : Int)
    (valueSchema : String) (keySchema : Option String) :
    Except CoordError (Option Int × Int) × List Event :=
  match resolveDefaults env topic partitionCount replicationFactor with
  | (.error e, evs) => (.error e, evs)
  | (.ok (pc, rf), evs) =>
    let (r, evs2) := createAndPublish env topic pc rf valueSchema keySchema
    (r, evs ++ evs2)

/-- Modelled from the spec: the sink identifier (`GlobalId`, from the
external `expr` crate, absent from the sources).  Per the spec, identifier
`7` renders as `"7"` in derived names, so it is a natural number rendered
in decimal. -/
abbrev GlobalId := Nat

/-- The decimal rendering of a sink identifier (`id.to_string()`). -/
def GlobalId.render (id : GlobalId) : String := Nat.repr id

/-- `KafkaSinkConnectorBuilder` from `dataflow_types`: the broker-variant
builder input.  Pass-through fields whose types live outside the sources
(`key_desc_and_indices`, `value_desc`, `ccsr_config`) are modelled
opaquely as strings. -/
structure KafkaSinkConnectorBuilder where
  brokerAddrs : String
  valueSchema : String
  keySchema : Option String
  topicPrefix : String
  topicSuffix : String
  partitionCount : Int
  replicationFactor : Int
  fuel : Nat
  consistencyValueSchema : Option String
  configOptions : List (String × String)
  keyDescAndIndices : Option String
  valueDesc : String
  ccsrConfig : String

/-- `AvroOcfSinkConnectorBuilder` from `dataflow_types`: the file-variant
builder input. -/
structure AvroOcfSinkConnectorBuilder where
  path : FsPath
  fileNameSuffix : String
  valueDesc : String

/-- `SinkConnectorBuilder`: the closed sum of the two builder variants. -/
inductive SinkConnectorBuilder where
  | kafka (b : KafkaSinkConnectorBuilder)
  | avroOcf (b : AvroOcfSinkConnectorBuilder)

/-- `KafkaSinkConsistencyConnector`: the consistency topic's name and its
published schema id. -/
structure KafkaSinkConsistencyConnector where
  topic : String
  schemaId : Int
deriving DecidableEq, Repr

/-- `KafkaSinkConnector`: the broker-variant output descriptor. -/
structure KafkaSinkConnector where
  keySchemaId : Option Int
  valueSchemaId : Int
  topic : String
  addrs : String
  keyDescAndIndices : Option String
  valueDesc : String
  consistency : Option KafkaSinkConsistencyConnector
  fuel : Nat
  configOptions : List (String × String)
deriving DecidableEq, Repr

/-- `AvroOcfSinkConnector`: the file-variant output descriptor. -/
structure AvroOcfSinkConnector where
  path : FsPath
  valueDesc : String
deriving DecidableEq, Repr

/-- `SinkConnector`: the closed sum of the two output variants. -/
inductive SinkConnector where
  | kafka (c : KafkaSinkConnector)
  | avroOcf (c : AvroOcfSinkConnector)
deriving DecidableEq, Repr

/-- The outcome of a build: a connector, an error result, or a panic
(`expect` in the source aborts rather than returning an error). -/
inductive BuildOutcome where
  | ok (c : SinkConnector)
  | error (e : CoordError)
  | panic (msg : String)
deriving DecidableEq, Repr

/-- The derived topic name (line 176):
`format!("{}-{}-{}", builder.topic_prefix, id, builder.topic_suffix)`. -/
def kafkaTopicName (builder : KafkaSinkConnectorBuilder) (id : GlobalId) : String :=
  KafkaSinkConnectorBuilder.topicPrefix builder ++ "-" ++ GlobalId.render id ++ "-" ++
    builder.topicSuffix

/-- `build_kafka` (lines 172–234): derive the topic name, build the admin
client (panicking on failure, line 186), register the primary topic,
optionally register the `<topic>-consistency` topic with partition count 1
and the builder-supplied replication factor, and assemble the connector. -/
def buildKafka (env : KafkaEnv) (builder : KafkaSinkConnectorBuilder) (id : GlobalId) :
    BuildOutcome × List Event :=
  let topic := kafkaTopicName builder id
  match env.createAdminClient with
  | .error _ => (.panic "creating admin client failed", [])
  | .ok _ =>
    match registerKafkaTopic env topic builder.partitionCount builder.replicationFactor
        builder.valueSchema builder.keySchema with
    | (.error e, evs) =>
      (.error (.context "error registering kafka topic for sink" e), evs)
    | (.ok (keySchemaId, valueSchemaId), evs) =>
      match builder.consistencyValueSchema with
      | some consistencyValueSchema =>
        let consistencyTopic := topic ++ "-consistency"
        match registerKafkaTopic env consistencyTopic 1 builder.replicationFactor
            consistencyValueSchema none with
        | (.error e, evs2) =>
          (.error (.context "error registering kafka consistency topic for sink" e),
            evs ++ evs2)
        | (.ok (_, consistencySchemaId), evs2) =>
          (.ok (.kafka {
            keySchemaId := keySchemaId
            valueSchemaId := valueSchemaId
            topic := topic
            addrs := builder.brokerAddrs
            keyDescAndIndices := builder.keyDescAndIndices
            valueDesc := builder.valueDesc
            consistency := some { topic := consistencyTopic, schemaId := consistencySchemaId }
            fuel := builder.fuel
            configOptions := builder.configOptions }), evs ++ evs2)
      | none =>
        (.ok (.kafka {
          keySchemaId := keySchemaId
          valueSchemaId := valueSchemaId
          topic := topic
          addrs := builder.brokerAddrs
          keyDescAndIndices := builder.keyDescAndIndices
          valueDesc := builder.valueDesc
          consistency := none
          fuel := builder.fuel
          configOptions := builder.configOptions }), evs)

/-- `build_avro_ocf` (lines 236–274): derive
`<stem>-<id>-<suffix>[.<extension>]` next to the base path, then claim it
with an exclusive (`create_new`), append-mode open.  The filesystem is the
list `fs` of existing paths; the open succeeds exactly when the derived
path is absent, and on success the path is added.  Returns the result, the
filesystem afterwards, and the trace of external calls. -/
def buildAvroOcf (fs : List FsPath) (builder : AvroOcfSinkConnectorBuilder)
    (id : GlobalId) :
    BuildOutcome × List FsPath × List Event :=
  match builder.path.fileStem with
  | none =>
    (.error (.msg ("unable to read file name from path " ++ builder.path.display)),
      fs, [])
  | some stem =>
    let name := stem ++ "-" ++ GlobalId.render id ++ "-" ++ builder.fileNameSuffix
    let name :=
      match builder.path.extension with
      | some extension => name ++ "." ++ extension
      | none => name
    let path := builder.path.withFileName name
    if path ∈ fs then
      (.error (.msg ("unable to create avro ocf sink file " ++ path.display ++
        " : File exists (os error 17)")), fs, [.openCreateNewAppend path])
    else
      (.ok (.avroOcf { path := path, valueDesc := builder.valueDesc }),
        path :: fs, [.openCreateNewAppend path])

/-- `build` (lines 27–35): dispatch on the builder variant. -/
def build (env : KafkaEnv) (fs : List FsPath) (builder : SinkConnectorBuilder)
    (id : GlobalId) :
    BuildOutcome × List FsPath × List Event :=
  match builder with
  | .kafka k =>
    let (r, evs) := buildKafka env k id
    (r, fs, evs)
  | .avroOcf a => buildAvroOcf fs a id

/-! ## Concrete environments, builders and connectors used by the witnesses -/

/-- A broker that reports no brokers in its metadata response. -/
def envNoBrokers : KafkaEnv := {
  fetchMetadata := .ok []
  describeConfigs := fun _ => .ok []
  createTopics := fun _ _ _ => .ok []
  publishSchema := fun _ _ => .ok 1
  createAdminClient := .ok () }

/-- A broker whose configured default partition count is `0`: default
resolution succeeds and yields a non-positive partition count. -/
def envC1 : KafkaEnv := {
  fetchMetadata := .ok [0]
  describeConfigs := fun _ => .ok [.ok { entries := [
    { name := "num.partitions", value := some "0" },
    { name := "default.replication.factor", value := some "3" }] }]
  createTopics := fun t _ _ => .ok [.ok t]
  publishSchema := fun _ _ => .ok 7
  createAdminClient := .ok () }

/-- A healthy broker whose schema registry rejects every publication. -/
def envPubFail : KafkaEnv := {
  fetchMetadata := .ok [0]
  describeConfigs := fun _ => .ok [.ok { entries := [
    { name := "num.partitions", value := some "3" },
    { name := "default.replication.factor", value := some "2" }] }]
  createTopics := fun t _ _ => .ok [.ok t]
  publishSchema := fun _ _ => .error "registry unavailable"
  createAdminClient := .ok () }

/-- A healthy broker and registry. -/
def envOk : KafkaEnv := {
  fetchMetadata := .ok [0]
  describeConfigs := fun _ => .ok [.ok { entries := [
    { name := "num.partitions", value := some "3" },
    { name := "default.replication.factor", value := some "2" }] }]
  createTopics := fun t _ _ => .ok [.ok t]
  publishSchema := fun _ _ => .ok 42
  createAdminClient := .ok () }

/-- A configuration for which rdkafka admin-client construction fails. -/
def envPanic : KafkaEnv := {
  fetchMetadata := .ok [0]
  describeConfigs := fun _ => .ok []
  createTopics := fun t _ _ => .ok [.ok t]
  publishSchema := fun _ _ => .ok 42
  createAdminClient := .error "bad client config" }

/-- A concrete Kafka builder without key or consistency schemas. -/
def bldrK : KafkaSinkConnectorBuilder := {
  brokerAddrs := "localhost:9092"
  valueSchema := "vschema"
  keySchema := none
  topicPrefix := "p"
  topicSuffix := "s"
  partitionCount := 1
  replicationFactor := 1
  fuel := 10000
  consistencyValueSchema := none
  configOptions := []
  keyDescAndIndices := none
  valueDesc := "vdesc"
  ccsrConfig := "" }

/-- The connector produced by the concrete C8 witness build. -/
def connW : KafkaSinkConnector := {
  keySchemaId := none
  valueSchemaId := 42
  topic := "p-7-s"
  addrs := "localhost:9092"
  keyDescAndIndices := none
  valueDesc := "vdesc"
  consistency := none
  fuel := 10000
  configOptions := [] }

/-- A concrete Kafka builder carrying a consistency schema. -/
def bldrCons : KafkaSinkConnectorBuilder := {
  brokerAddrs := "localhost:9092"
  valueSchema := "vschema"
  keySchema := none
  topicPrefix := "p"
  topicSuffix := "s"
  partitionCount := 6
  replicationFactor := 2
  fuel := 10000
  consistencyValueSchema := some "cschema"
  configOptions := []
  keyDescAndIndices := none
  valueDesc := "vdesc"
  ccsrConfig := "" }

/-- The connector produced by the concrete C3 witness build. -/
def connCons : KafkaSinkConnector := {
  keySchemaId := none
  valueSchemaId := 42
  topic := "p-7-s"
  addrs := "localhost:9092"
  keyDescAndIndices := none
  valueDesc := "vdesc"
  consistency := some { topic := "p-7-s-consistency", schemaId := 42 }
  fuel := 10000
  configOptions := [] }

/-- The concrete file builder of the spec example: base path
`/out/data.avro`, suffix `x`. -/
def bldrF : AvroOcfSinkConnectorBuilder := {
  path := { parent := "/out", fileName := some "data.avro" }
  fileNameSuffix := "x"
  valueDesc := "vdesc" }

/-- The derived path of the spec example: `/out/data-3-x.avro`. -/
def pathF : FsPath := { parent := "/out", fileName := some "data-3-x.avro" }

/-- The connector produced by the concrete C6 witness build. -/
def connF : AvroOcfSinkConnector := { path := pathF, valueDesc := "vdesc" }

/-! ## Structural lemmas about the embedded operations -/

/-- A non-sentinel partition count is never overwritten by the config scan. -/
theorem scanEntries_ok_fst (entries : List ConfigEntry) (pc rf pc' rf' : Int)
    (hpc : pc ≠ -1) (h : scanEntries entries pc rf = .ok (pc', rf')) : pc' = pc := by
  induction entries generalizing rf with
  | nil => simp [scanEntries] at h; exact h.1.symm
  | cons e rest ih =>
    rw [scanEntries, if_neg (by simp [hpc])] at h
    split at h
    · split at h
      · split at h
        · exact ih _ h
        · exact absurd h (by simp)
      · exact ih _ h
    · exact ih _ h

/-- A non-sentinel replication factor is never overwritten by the config
scan. -/
theorem scanEntries_ok_snd (entries : List ConfigEntry) (pc rf pc' rf' : Int)
    (hrf : rf ≠ -1) (h : scanEntries entries pc rf = .ok (pc', rf')) : rf' = rf := by
  induction entries generalizing pc with
  | nil => simp [scanEntries] at h; exact h.2.symm
  | cons e rest ih =>
    rw [scanEntries] at h
    split at h
    · split at h
      · split at h
        · exact ih _ h
        · exact absurd h (by simp)
      · exact ih _ h
    · rw [if_neg (by simp [hrf])] at h
      exact ih _ h

/-- When neither value is the sentinel, default resolution does nothing:
it returns the supplied values and issues no external call. -/
theorem resolveDefaults_nil (env : KafkaEnv) (topic : String) (pc rf : Int)
    (hpc : pc ≠ -1) (hrf : rf ≠ -1) :
    resolveDefaults env topic pc rf = (.ok (pc, rf), []) := by
  unfold resolveDefaults
  rw [if_neg (by simp [hpc, hrf])]

/-- Successful default resolution never yields the sentinel, and passes a
non-sentinel supplied value through unchanged. -/
theorem resolveDefaults_ok (env : KafkaEnv) (topic : String) (pc rf pc' rf' : Int)
    (h : (resolveDefaults env topic pc rf).1 = .ok (pc', rf')) :
    pc' ≠ -1 ∧ rf' ≠ -1 ∧ (pc ≠ -1 → pc' = pc) ∧ (rf ≠ -1 → rf' = rf) := by
  unfold resolveDefaults at h
  split at h
  case isTrue hs =>
    split at h <;> try simp at h
    split at h <;> try simp at h
    split at h <;> try simp at h
    split at h <;> try simp at h
    split at h <;> try simp at h
    next pcv rfv hscan =>
      split at h <;> try simp at h
      next hpcv =>
        split at h <;> try simp at h
        next hrfv =>
          obtain ⟨e1, e2⟩ := h
          refine ⟨by omega, by omega, ?_, ?_⟩
          · intro hpc
            have := scanEntries_ok_fst _ _ _ pcv rfv hpc hscan
            omega
          · intro hrf
            have := scanEntries_ok_snd _ _ _ pcv rfv hrf hscan
            omega
  case isFalse hs =>
    push_neg at hs
    simp at h
    obtain ⟨e1, e2⟩ := h
    exact ⟨by omega, by omega, fun _ => by omega, fun _ => by omega⟩

/-- The resolution step issues at most a metadata fetch followed by one
config describe; in particular it creates no topic, publishes no schema,
deletes nothing, and touches no file. -/
theorem resolveDefaults_trace (env : KafkaEnv) (topic : String) (pc rf : Int) :
    (resolveDefaults env topic pc rf).2 = [] ∨
    (resolveDefaults env topic pc rf).2 = [.fetchMetadata] ∨
    ∃ b, (resolveDefaults env topic pc rf).2 = [.fetchMetadata, .describeConfigs b] := by
  unfold resolveDefaults
  repeat' split
  all_goals simp

/-- The creation-and-publication step issues exactly one create-topics call
for the resolved triple, then at most the value-schema and key-schema
publications, in that order. -/
theorem createAndPublish_trace (env : KafkaEnv) (topic : String) (pc rf : Int)
    (vs : String) (ks : Option String) :
    (createAndPublish env topic pc rf vs ks).2 = [.createTopic topic pc rf] ∨
    (createAndPublish env topic pc rf vs ks).2 =
      [.createTopic topic pc rf, .publishSchema (topic ++ "-value") vs] ∨
    ∃ k, ks = some k ∧ (createAndPublish env topic pc rf vs ks).2 =
      [.createTopic topic pc rf, .publishSchema (topic ++ "-value") vs,
        .publishSchema (topic ++ "-key") k] := by
  unfold createAndPublish
  repeat' split
  all_goals simp

/-- The trace of `register_kafka_topic` decomposes into the resolution
trace, followed (when resolution succeeded, with some resolved values) by
the creation-and-publication trace for those values. -/
theorem registerKafkaTopic_trace (env : KafkaEnv) (topic : String) (pc rf : Int)
    (vs : String) (ks : Option String) :
    ((registerKafkaTopic env topic pc rf vs ks).2 = (resolveDefaults env topic pc rf).2) ∨
    ∃ pc' rf', (resolveDefaults env topic pc rf).1 = .ok (pc', rf') ∧
      (registerKafkaTopic env topic pc rf vs ks).2 =
        (resolveDefaults env topic pc rf).2 ++ (createAndPublish env topic pc' rf' vs ks).2 := by
  unfold registerKafkaTopic
  split
  case _ e evs heq => left; rw [heq]
  case _ pc' rf' evs heq =>
    right
    refine ⟨pc', rf', by rw [heq], ?_⟩
    rw [heq]

theorem registerKafkaTopic_no_delete (env : KafkaEnv) (topic : String) (pc rf : Int)
    (vs : String) (ks : Option String) (t : String) :
    Event.deleteTopic t ∉ (registerKafkaTopic env topic pc rf vs ks).2 := by
  rcases registerKafkaTopic_trace env topic pc rf vs ks with h | ⟨pc', rf', _, h⟩ <;> rw [h]
  · rcases resolveDefaults_trace env topic pc rf with h2 | h2 | ⟨b, h2⟩ <;> rw [h2] <;> simp
  · rcases resolveDefaults_trace env topic pc rf with h2 | h2 | ⟨b, h2⟩ <;> rw [h2] <;>
      rcases createAndPublish_trace env topic pc' rf' vs ks with h3 | h3 | ⟨k, _, h3⟩ <;>
      rw [h3] <;> simp

theorem registerKafkaTopic_createTopic_mem (env : KafkaEnv) (topic : String) (pc rf : Int)
    (vs : String) (ks : Option String) (t : String) (p r : Int)
    (h : Event.createTopic t p r ∈ (registerKafkaTopic env topic pc rf vs ks).2) :
    t = topic ∧ (resolveDefaults env topic pc rf).1 = .ok (p, r) := by
  rcases registerKafkaTopic_trace env topic pc rf vs ks with h1 | ⟨pc', rf', hok, h1⟩ <;>
    rw [h1] at h
  · rcases resolveDefaults_trace env topic pc rf with h2 | h2 | ⟨b, h2⟩ <;> rw [h2] at h <;>
      simp at h
  · rw [List.mem_append] at h
    rcases h with h | h
    · rcases resolveDefaults_trace env topic pc rf with h2 | h2 | ⟨b, h2⟩ <;> rw [h2] at h <;>
        simp at h
    · rcases createAndPublish_trace env topic pc' rf' vs ks with h3 | h3 | ⟨k, _, h3⟩ <;>
        rw [h3] at h <;> simp at h
      all_goals
        obtain ⟨ht, hp, hr⟩ := h
        subst ht; subst hp; subst hr
        exact ⟨rfl, hok⟩

theorem registerKafkaTopic_publish_mem (env : KafkaEnv) (topic : String) (pc rf : Int)
    (vs : String) (ks : Option String) (subj sch : String)
    (h : Event.publishSchema subj sch ∈ (registerKafkaTopic env topic pc rf vs ks).2) :
    (subj = topic ++ "-value" ∧ sch = vs) ∨
    ∃ k, ks = some k ∧ subj = topic ++ "-key" ∧ sch = k := by
  rcases registerKafkaTopic_trace env topic pc rf vs ks with h1 | ⟨pc', rf', hok, h1⟩ <;>
    rw [h1] at h
  · rcases resolveDefaults_trace env topic pc rf with h2 | h2 | ⟨b, h2⟩ <;> rw [h2] at h <;>
      simp at h
  · rw [List.mem_append] at h
    rcases h with h | h
    · rcases resolveDefaults_trace env topic pc rf with h2 | h2 | ⟨b, h2⟩ <;> rw [h2] at h <;>
        simp at h
    · rcases createAndPublish_trace env topic pc' rf' vs ks with h3 | h3 | ⟨k, hk, h3⟩ <;>
        rw [h3] at h <;> simp at h
      · rcases h with ⟨h4, h5⟩
        exact Or.inl ⟨h4, h5⟩
      · rcases h with ⟨h4, h5⟩ | ⟨h4, h5⟩
        · exact Or.inl ⟨h4, h5⟩
        · exact Or.inr ⟨k, hk, h4, h5⟩

theorem createAndPublish_ok (env : KafkaEnv) (topic : String) (pc rf : Int)
    (vs : String) (ks : Option String) (kid : Option Int) (vid : Int)
    (h : (createAndPublish env topic pc rf vs ks).1 = .ok (kid, vid)) :
    env.publishSchema (topic ++ "-value") vs = .ok vid ∧
    ((ks = none ∧ kid = none ∧ (createAndPublish env topic pc rf vs ks).2 =
        [.createTopic topic pc rf, .publishSchema (topic ++ "-value") vs]) ∨
     (∃ k i, ks = some k ∧ kid = some i ∧ env.publishSchema (topic ++ "-key") k = .ok i ∧
        (createAndPublish env topic pc rf vs ks).2 =
          [.createTopic topic pc rf, .publishSchema (topic ++ "-value") vs,
            .publishSchema (topic ++ "-key") k])) := by
  rcases hct : env.createTopics topic pc rf with e | res
  · simp only [createAndPublish, hct] at h
    simp at h
  · rcases res with _ | ⟨r, rest⟩
    · simp only [createAndPublish, hct] at h
      simp at h
    · rcases rest with _ | ⟨r2, rest2⟩
      · rcases r with e2 | s
        · simp only [createAndPublish, hct] at h
          simp at h
        · rcases hpv : env.publishSchema (topic ++ "-value") vs with e3 | vid'
          · simp only [createAndPublish, hct, hpv] at h
            simp at h
          · rcases ks with _ | k
            · simp only [createAndPublish, hct, hpv] at h ⊢
              simp at h
              obtain ⟨h1, h2⟩ := h
              subst h1; subst h2
              simp
            · rcases hpk : env.publishSchema (topic ++ "-key") k with e4 | i
              · simp only [createAndPublish, hct, hpv, hpk] at h
                simp at h
              · simp only [createAndPublish, hct, hpv, hpk] at h ⊢
                simp at h
                obtain ⟨h1, h2⟩ := h
                subst h1; subst h2
                simp [hpk]
      · simp only [createAndPublish, hct] at h
        simp at h

theorem registerKafkaTopic_ok (env : KafkaEnv) (topic : String) (pc rf : Int)
    (vs : String) (ks : Option String) (kid : Option Int) (vid : Int)
    (h : (registerKafkaTopic env topic pc rf vs ks).1 = .ok (kid, vid)) :
    ∃ pc' rf', (resolveDefaults env topic pc rf).1 = .ok (pc', rf') ∧
      (createAndPublish env topic pc' rf' vs ks).1 = .ok (kid, vid) ∧
      (registerKafkaTopic env topic pc rf vs ks).2 =
        (resolveDefaults env topic pc rf).2 ++ (createAndPublish env topic pc' rf' vs ks).2 := by
  rcases hrd : resolveDefaults env topic pc rf with ⟨r0, evs0⟩
  rcases r0 with e | ⟨pc', rf'⟩
  · simp only [registerKafkaTopic, hrd] at h
    simp at h
  · rcases hcp : createAndPublish env topic pc' rf' vs ks with ⟨r1, evs1⟩
    simp only [registerKafkaTopic, hrd, hcp] at h
    exact ⟨pc', rf', rfl, by rw [hcp]; exact h,
      by simp only [registerKafkaTopic, hrd, hcp]⟩

/-- In a successful registration's trace there is a create-topics request,
and it carries the resolved values. -/
theorem registerKafkaTopic_ok_createTopic (env : KafkaEnv) (topic : String)
    (pc rf : Int) (vs : String) (ks : Option String) (kid : Option Int) (vid : Int)
    (h : (registerKafkaTopic env topic pc rf vs ks).1 = .ok (kid, vid)) :
    ∃ p r, Event.createTopic topic p r ∈ (registerKafkaTopic env topic pc rf vs ks).2 ∧
      (resolveDefaults env topic pc rf).1 = .ok (p, r) := by
  obtain ⟨pc', rf', hres, hcp, htr⟩ := registerKafkaTopic_ok env topic pc rf vs ks kid vid h
  refine ⟨pc', rf', ?_, hres⟩
  rw [htr]
  obtain ⟨-, hshape⟩ := createAndPublish_ok env topic pc' rf' vs ks kid vid hcp
  rcases hshape with ⟨-, -, h2⟩ | ⟨k, i, -, -, -, h2⟩ <;> rw [h2] <;> simp

theorem string_append_right_ne (t a b : String) (h : a.length ≠ b.length) :
    t ++ a ≠ t ++ b := by
  intro he
  have h2 := congrArg String.length he
  rw [String.length_append, String.length_append] at h2
  omega

theorem string_append_ne_self (t s : String) (h : s.length ≠ 0) : t ++ s ≠ t := by
  intro he
  have h2 := congrArg String.length he
  rw [String.length_append] at h2
  omega

theorem buildKafka_ok (env : KafkaEnv) (b : KafkaSinkConnectorBuilder) (id : GlobalId)
    (conn : SinkConnector) (h : (buildKafka env b id).1 = .ok conn) :
    ∃ kid vid,
      (registerKafkaTopic env (kafkaTopicName b id) b.partitionCount b.replicationFactor
        b.valueSchema b.keySchema).1 = .ok (kid, vid) ∧
      ((b.consistencyValueSchema = none ∧
         conn = SinkConnector.kafka {
           keySchemaId := kid
           valueSchemaId := vid
           topic := kafkaTopicName b id
           addrs := b.brokerAddrs
           keyDescAndIndices := b.keyDescAndIndices
           valueDesc := b.valueDesc
           consistency := none
           fuel := b.fuel
           configOptions := b.configOptions } ∧
         (buildKafka env b id).2 =
           (registerKafkaTopic env (kafkaTopicName b id) b.partitionCount b.replicationFactor
             b.valueSchema b.keySchema).2) ∨
       (∃ cvs ckid cid, b.consistencyValueSchema = some cvs ∧
         (registerKafkaTopic env (kafkaTopicName b id ++ "-consistency") 1 b.replicationFactor
           cvs none).1 = .ok (ckid, cid) ∧
         conn = SinkConnector.kafka {
           keySchemaId := kid
           valueSchemaId := vid
           topic := kafkaTopicName b id
           addrs := b.brokerAddrs
           keyDescAndIndices := b.keyDescAndIndices
           valueDesc := b.valueDesc
           consistency := some { topic := kafkaTopicName b id ++ "-consistency", schemaId := cid }
           fuel := b.fuel
           configOptions := b.configOptions } ∧
         (buildKafka env b id).2 =
           (registerKafkaTopic env (kafkaTopicName b id) b.partitionCount b.replicationFactor
             b.valueSchema b.keySchema).2 ++
           (registerKafkaTopic env (kafkaTopicName b id ++ "-consistency") 1 b.replicationFactor
             cvs none).2)) := by
  rcases hac : env.createAdminClient with e | u
  · simp only [buildKafka, hac] at h
    simp at h
  · rcases hreg : registerKafkaTopic env (kafkaTopicName b id) b.partitionCount
        b.replicationFactor b.valueSchema b.keySchema with ⟨r0, evs0⟩
    rcases r0 with e | ⟨kid, vid⟩
    · simp only [buildKafka, hac, hreg] at h
      simp at h
    · rcases hcs : b.consistencyValueSchema with _ | cvs
      · simp only [buildKafka, hac, hreg, hcs] at h
        simp at h
        exact ⟨kid, vid, rfl, Or.inl ⟨rfl, h.symm,
          by simp only [buildKafka, hac, hreg, hcs]⟩⟩
      · rcases hcreg : registerKafkaTopic env (kafkaTopicName b id ++ "-consistency") 1
            b.replicationFactor cvs none with ⟨r1, evs1⟩
        rcases r1 with e | ⟨ckid, cid⟩
        · simp only [buildKafka, hac, hreg, hcs, hcreg] at h
          simp at h
        · simp only [buildKafka, hac, hreg, hcs, hcreg] at h
          simp at h
          exact ⟨kid, vid, rfl, Or.inr ⟨cvs, ckid, cid, rfl, by rw [hcreg], h.symm,
            by simp only [buildKafka, hac, hreg, hcs, hcreg]⟩⟩

/-! ## The claim theorems -/

/-- Claim C1 counterexample: with both inputs the sentinel and a broker
whose configured `num.partitions` is `0`, default resolution succeeds and
the topic-creation request carries partition count `0`, which is not
strictly positive — refuting the claim that resolved values are always
strictly positive. -/
theorem c1_counterexample :
    ((-1 : Int) = -1 ∨ (-1 : Int) = -1) ∧
    (registerKafkaTopic envC1 "t" (-1) (-1) "v" none).1 = .ok (none, 7) ∧
    Event.createTopic "t" 0 3 ∈ (registerKafkaTopic envC1 "t" (-1) (-1) "v" none).2 ∧
    ¬(0 : Int) > 0 :=
  ⟨Or.inl rfl, by decide, by decide, by decide⟩

/-- Claim C1 (amended): after successful resolution the sentinel `-1`
never appears in the topic-creation request — every created topic's
partition count and replication factor differ from `-1` (though they need
not be strictly positive). -/
theorem c1_no_sentinel_in_creation (env : KafkaEnv) (topic : String) (pc rf : Int)
    (vs : String) (ks : Option String) (t : String) (p r : Int)
    (h : Event.createTopic t p r ∈ (registerKafkaTopic env topic pc rf vs ks).2) :
    p ≠ -1 ∧ r ≠ -1 := by
  obtain ⟨-, hok⟩ := registerKafkaTopic_createTopic_mem env topic pc rf vs ks t p r h
  exact ⟨(resolveDefaults_ok env topic pc rf p r hok).1,
    (resolveDefaults_ok env topic pc rf p r hok).2.1⟩

/-- Witness for the amended C1: the counterexample trace's created topic
carries non-sentinel parameters. -/
theorem c1_witness :
    Event.createTopic "t" 0 3 ∈ (registerKafkaTopic envC1 "t" (-1) (-1) "v" none).2 ∧
    ((0 : Int) ≠ -1 ∧ (3 : Int) ≠ -1) :=
  ⟨by decide, c1_no_sentinel_in_creation envC1 "t" (-1) (-1) "v" none "t" 0 3 (by decide)⟩

/-- Claim C2: when topic creation succeeds but the subsequent schema
publication (value or key) fails, the registration returns the
schema-publish error, and no compensating topic deletion is issued on any
path. -/
theorem c2_publish_failure_leaves_topic (env : KafkaEnv) (topic : String)
    (pc rf pc' rf' : Int) (vs : String) (ks : Option String) (s : String)
    (hres : (resolveDefaults env topic pc rf).1 = .ok (pc', rf'))
    (hct : env.createTopics topic pc' rf' = .ok [.ok s]) :
    (∀ e, env.publishSchema (topic ++ "-value") vs = .error e →
      (registerKafkaTopic env topic pc rf vs ks).1 =
        .error (.context "unable to publish value schema to registry in kafka sink"
          (.msg e))) ∧
    (∀ vid k e, ks = some k → env.publishSchema (topic ++ "-value") vs = .ok vid →
      env.publishSchema (topic ++ "-key") k = .error e →
      (registerKafkaTopic env topic pc rf vs ks).1 =
        .error (.context "unable to publish key schema to registry in kafka sink"
          (.msg e))) ∧
    (∀ t, Event.deleteTopic t ∉ (registerKafkaTopic env topic pc rf vs ks).2) := by
  rcases hrd : resolveDefaults env topic pc rf with ⟨r0, evs0⟩
  rw [hrd] at hres
  have hr0 : r0 = .ok (pc', rf') := hres
  subst hr0
  refine ⟨?_, ?_, ?_⟩
  · intro e hpub
    simp only [registerKafkaTopic, hrd, createAndPublish, hct, hpub]
  · intro vid k e hk hpv hpk
    subst hk
    simp only [registerKafkaTopic, hrd, createAndPublish, hct, hpv, hpk]
  · intro t
    exact registerKafkaTopic_no_delete env topic pc rf vs ks t

/-- Witness for C2 at a concrete environment whose registry is down. -/
theorem c2_witness :
    (registerKafkaTopic envPubFail "t" 4 2 "v" none).1 =
      .error (.context "unable to publish value schema to registry in kafka sink"
        (.msg "registry unavailable")) ∧
    Event.deleteTopic "t" ∉ (registerKafkaTopic envPubFail "t" 4 2 "v" none).2 := by
  obtain ⟨h1, -, h3⟩ := c2_publish_failure_leaves_topic envPubFail "t" 4 2 4 2 "v" none "t"
    (by decide) (by decide)
  exact ⟨h1 "registry unavailable" rfl, h3 "t"⟩

/-- Claim C3: a successful build that supplies a consistency schema
provisions `<topic>-consistency` with partition count exactly 1 and, when
the builder-supplied replication factor is not the sentinel, exactly that
replication factor, publishes no key schema for it, and records it in the
output connector; without a consistency schema the consistency field is
absent and no consistency topic is created. -/
theorem c3_consistency_topic (env : KafkaEnv) (b : KafkaSinkConnectorBuilder)
    (id : GlobalId) :
    (∀ cvs conn, b.consistencyValueSchema = some cvs →
      (buildKafka env b id).1 = .ok conn →
      (∃ c cid, conn = SinkConnector.kafka c ∧
        c.consistency = some { topic := kafkaTopicName b id ++ "-consistency"
                               schemaId := cid }) ∧
      (∃ r, Event.createTopic (kafkaTopicName b id ++ "-consistency") 1 r ∈
          (buildKafka env b id).2 ∧
        (b.replicationFactor ≠ -1 → r = b.replicationFactor)) ∧
      (∀ p r, Event.createTopic (kafkaTopicName b id ++ "-consistency") p r ∈
          (buildKafka env b id).2 → p = 1) ∧
      (∀ sch, Event.publishSchema ((kafkaTopicName b id ++ "-consistency") ++ "-key") sch ∉
          (buildKafka env b id).2)) ∧
    (∀ conn, b.consistencyValueSchema = none →
      (buildKafka env b id).1 = .ok conn →
      (∃ c, conn = SinkConnector.kafka c ∧ c.consistency = none) ∧
      (∀ p r, Event.createTopic (kafkaTopicName b id ++ "-consistency") p r ∉
          (buildKafka env b id).2)) := by
  have hner : kafkaTopicName b id ++ "-consistency" ≠ kafkaTopicName b id :=
    string_append_ne_self (kafkaTopicName b id) "-consistency" (by decide)
  constructor
  · intro cvs conn hcs hok
    obtain ⟨kid, vid, hreg, hcase⟩ := buildKafka_ok env b id conn hok
    rcases hcase with ⟨hnone, -, -⟩ | ⟨cvs2, ckid, cid, hsome, hcreg, hconn, htr⟩
    · rw [hcs] at hnone
      exact absurd hnone (by simp)
    · rw [hcs] at hsome
      have hcvs : cvs = cvs2 := Option.some.inj hsome
      subst hcvs
      obtain ⟨p0, r0, hmem0, hres0⟩ := registerKafkaTopic_ok_createTopic env
        (kafkaTopicName b id ++ "-consistency") 1 b.replicationFactor cvs none ckid cid hcreg
      obtain ⟨hp0ne, hr0ne, hp0, hr0⟩ := resolveDefaults_ok env
        (kafkaTopicName b id ++ "-consistency") 1 b.replicationFactor p0 r0 hres0
      have hp01 : p0 = 1 := hp0 (by omega)
      subst hp01
      refine ⟨⟨_, cid, hconn, rfl⟩, ?_, ?_, ?_⟩
      · exact ⟨r0, by rw [htr]; exact List.mem_append_right _ hmem0, hr0⟩
      · intro p r hmem
        rw [htr, List.mem_append] at hmem
        rcases hmem with hmem | hmem
        · obtain ⟨hname, -⟩ := registerKafkaTopic_createTopic_mem env
            (kafkaTopicName b id) b.partitionCount b.replicationFactor
            b.valueSchema b.keySchema _ p r hmem
          exact absurd hname hner
        · obtain ⟨-, hres⟩ := registerKafkaTopic_createTopic_mem env
            (kafkaTopicName b id ++ "-consistency") 1 b.replicationFactor
            cvs none _ p r hmem
          exact (resolveDefaults_ok env _ 1 b.replicationFactor p r hres).2.2.1 (by omega)
      · intro sch hmem
        rw [htr, List.mem_append] at hmem
        rcases hmem with hmem | hmem
        · rcases registerKafkaTopic_publish_mem env (kafkaTopicName b id) b.partitionCount
            b.replicationFactor b.valueSchema b.keySchema _ sch hmem with
            ⟨hsubj, -⟩ | ⟨k3, -, hsubj, -⟩
          · rw [String.append_assoc] at hsubj
            exact absurd hsubj
              (string_append_right_ne (kafkaTopicName b id) ("-consistency" ++ "-key")
                "-value" (by decide))
          · rw [String.append_assoc] at hsubj
            exact absurd hsubj
              (string_append_right_ne (kafkaTopicName b id) ("-consistency" ++ "-key")
                "-key" (by decide))
        · rcases registerKafkaTopic_publish_mem env (kafkaTopicName b id ++ "-consistency") 1
            b.replicationFactor cvs none _ sch hmem with ⟨hsubj, -⟩ | ⟨k3, hk3, -, -⟩
          · exact absurd hsubj
              (string_append_right_ne (kafkaTopicName b id ++ "-consistency")
                "-key" "-value" (by decide))
          · exact absurd hk3 (by simp)
  · intro conn hcs hok
    obtain ⟨kid, vid, hreg, hcase⟩ := buildKafka_ok env b id conn hok
    rcases hcase with ⟨-, hconn, htr⟩ | ⟨cvs2, ckid, cid, hsome, -, -, -⟩
    · refine ⟨⟨_, hconn, rfl⟩, ?_⟩
      intro p r hmem
      rw [htr] at hmem
      obtain ⟨hname, -⟩ := registerKafkaTopic_createTopic_mem env
        (kafkaTopicName b id) b.partitionCount b.replicationFactor
        b.valueSchema b.keySchema _ p r hmem
      exact absurd hname hner
    · rw [hcs] at hsome
      exact absurd hsome (by simp)

/-- Witness for C3: a concrete build with a 6-partition primary topic
creates its consistency topic with exactly 1 partition and records it in
the connector. -/
theorem c3_witness :
    Event.createTopic (kafkaTopicName bldrCons 7 ++ "-consistency") 1 2 ∈
      (buildKafka envOk bldrCons 7).2 ∧
    connCons.consistency = some { topic := kafkaTopicName bldrCons 7 ++ "-consistency"
                                  schemaId := 42 } := by
  obtain ⟨-, h2, -, -⟩ := (c3_consistency_topic envOk bldrCons 7).1 "cschema"
    (.kafka connCons) rfl (by decide)
  obtain ⟨r, hm, hr⟩ := h2
  have hr2 : r = 2 := (hr (by decide)).trans (by decide)
  subst hr2
  exact ⟨hm, by decide⟩

/-- Claim C4: when both supplied values are positive, default resolution is
never invoked (no metadata fetch, no config describe); and when resolution
does run, a non-sentinel supplied value passes through to the
topic-creation request unchanged. -/
theorem c4_no_resolution_when_positive (env : KafkaEnv) (topic : String) (pc rf : Int)
    (vs : String) (ks : Option String) :
    (0 < pc → 0 < rf →
      Event.fetchMetadata ∉ (registerKafkaTopic env topic pc rf vs ks).2 ∧
      ∀ brk, Event.describeConfigs brk ∉ (registerKafkaTopic env topic pc rf vs ks).2) ∧
    (pc ≠ -1 → ∀ t p r,
      Event.createTopic t p r ∈ (registerKafkaTopic env topic pc rf vs ks).2 → p = pc) ∧
    (rf ≠ -1 → ∀ t p r,
      Event.createTopic t p r ∈ (registerKafkaTopic env topic pc rf vs ks).2 → r = rf) := by
  refine ⟨?_, ?_, ?_⟩
  · intro hpc hrf
    have hnil := resolveDefaults_nil env topic pc rf (by omega) (by omega)
    have htr : (registerKafkaTopic env topic pc rf vs ks).2 =
        (createAndPublish env topic pc rf vs ks).2 := by
      simp only [registerKafkaTopic, hnil]
      rcases hcp : createAndPublish env topic pc rf vs ks with ⟨r1, evs1⟩
      simp
    rw [htr]
    rcases createAndPublish_trace env topic pc rf vs ks with h3 | h3 | ⟨k, -, h3⟩ <;>
      rw [h3] <;> simp
  · intro hpc t p r hmem
    obtain ⟨-, hok⟩ := registerKafkaTopic_createTopic_mem env topic pc rf vs ks t p r hmem
    exact (resolveDefaults_ok env topic pc rf p r hok).2.2.1 hpc
  · intro hrf t p r hmem
    obtain ⟨-, hok⟩ := registerKafkaTopic_createTopic_mem env topic pc rf vs ks t p r hmem
    exact (resolveDefaults_ok env topic pc rf p r hok).2.2.2 hrf

/-- Witness for C4 at a concrete positive input: no metadata or config
call appears in the trace. -/
theorem c4_witness :
    Event.fetchMetadata ∉ (registerKafkaTopic envOk "t" 4 2 "v" none).2 ∧
    Event.describeConfigs 0 ∉ (registerKafkaTopic envOk "t" 4 2 "v" none).2 := by
  obtain ⟨h1, -, -⟩ := c4_no_resolution_when_positive envOk "t" 4 2 "v" none
  obtain ⟨ha, hb⟩ := h1 (by decide) (by decide)
  exact ⟨ha, hb 0⟩

/-- Claim C5: for every registerTopic call that enters default resolution
and whose metadata fetch returns an empty broker list, the call fails with
NoBrokersDiscovered (`zero brokers discovered in metadata request`) and no
topic-creation request is issued. -/
theorem c5_no_brokers_resolution_fails (env : KafkaEnv) (topic : String) (pc rf : Int)
    (vs : String) (ks : Option String)
    (hsent : pc = -1 ∨ rf = -1) (hmeta : env.fetchMetadata = .ok []) :
    (registerKafkaTopic env topic pc rf vs ks).1 =
      .error (.msg "zero brokers discovered in metadata request") ∧
    ∀ t p r, Event.createTopic t p r ∉ (registerKafkaTopic env topic pc rf vs ks).2 := by
  have hres : resolveDefaults env topic pc rf =
      (.error (.msg "zero brokers discovered in metadata request"), [.fetchMetadata]) := by
    unfold resolveDefaults
    rw [if_pos hsent, hmeta]
  constructor
  · simp only [registerKafkaTopic, hres]
  · intro t p r hmem
    obtain ⟨-, hok⟩ := registerKafkaTopic_createTopic_mem env topic pc rf vs ks t p r hmem
    rw [hres] at hok
    simp at hok

/-- Witness for C5 at a concrete environment and sentinel input. -/
theorem c5_witness :
    (registerKafkaTopic envNoBrokers "p-1-s" (-1) 3 "vschema" none).1 =
      .error (.msg "zero brokers discovered in metadata request") ∧
    Event.createTopic "p-1-s" 1 3 ∉
      (registerKafkaTopic envNoBrokers "p-1-s" (-1) 3 "vschema" none).2 := by
  obtain ⟨h1, h2⟩ := c5_no_brokers_resolution_fails envNoBrokers "p-1-s" (-1) 3 "vschema"
    none (Or.inl rfl) rfl
  exact ⟨h1, h2 "p-1-s" 1 3⟩

/-- Claim C6: a successful file-variant build derives the file name
`<stem>-<sinkIdentifier>-<suffix>[.<originalExtension>]` next to the base
path; a base path with no file stem fails with PathMissingFileStem before
any filesystem call. -/
theorem c6_file_name_derivation (fs : List FsPath) (b : AvroOcfSinkConnectorBuilder)
    (id : GlobalId) :
    (∀ stem c, b.path.fileStem = some stem →
      (buildAvroOcf fs b id).1 = .ok (.avroOcf c) →
      c.path.parent = b.path.parent ∧
      c.path.fileName = some (match b.path.extension with
        | some ext => stem ++ "-" ++ GlobalId.render id ++ "-" ++ b.fileNameSuffix ++ "." ++ ext
        | none => stem ++ "-" ++ GlobalId.render id ++ "-" ++ b.fileNameSuffix)) ∧
    (b.path.fileStem = none →
      buildAvroOcf fs b id =
        (.error (.msg ("unable to read file name from path " ++ b.path.display)), fs, [])) := by
  constructor
  · intro stem c hstem hok
    rcases hext : b.path.extension with _ | ext <;>
        simp only [buildAvroOcf, hstem, hext] at hok ⊢ <;>
        split at hok
    · exact absurd hok (by simp)
    · simp only [Prod.fst, BuildOutcome.ok.injEq, SinkConnector.avroOcf.injEq] at hok
      rw [← hok]
      exact ⟨rfl, rfl⟩
    · exact absurd hok (by simp)
    · simp only [Prod.fst, BuildOutcome.ok.injEq, SinkConnector.avroOcf.injEq] at hok
      rw [← hok]
      exact ⟨rfl, rfl⟩
  · intro hnone
    simp only [buildAvroOcf, hnone]

/-- Witness for C6: base `/out/data.avro`, identifier 3, suffix `x` yields
`/out/data-3-x.avro`. -/
theorem c6_witness :
    (buildAvroOcf [] bldrF 3).1 = .ok (.avroOcf connF) ∧
    connF.path.parent = "/out" ∧
    connF.path.fileName = some "data-3-x.avro" ∧
    connF.path.display = "/out/data-3-x.avro" := by
  have h := (c6_file_name_derivation [] bldrF 3).1 "data" connF (by decide) (by decide)
  exact ⟨by decide, h.1.trans (by decide), h.2.trans (by decide), by decide⟩

/-- Claim C7: a file-variant build whose derived path already exists fails
with SinkFileAlreadyExists and leaves the filesystem unchanged; a second
build for the same (base path, identifier, suffix) after a successful one
therefore fails. -/
theorem c7_file_already_exists (fs : List FsPath) (b : AvroOcfSinkConnectorBuilder)
    (id : GlobalId) (stem : String) (p : FsPath)
    (hstem : b.path.fileStem = some stem)
    (hp : p = b.path.withFileName (match b.path.extension with
      | some ext => stem ++ "-" ++ GlobalId.render id ++ "-" ++ b.fileNameSuffix ++ "." ++ ext
      | none => stem ++ "-" ++ GlobalId.render id ++ "-" ++ b.fileNameSuffix)) :
    (p ∈ fs →
      (buildAvroOcf fs b id).1 = .error (.msg ("unable to create avro ocf sink file " ++
        p.display ++ " : File exists (os error 17)")) ∧
      (buildAvroOcf fs b id).2.1 = fs) ∧
    (∀ c fs2 evs, buildAvroOcf fs b id = (.ok c, fs2, evs) →
      (buildAvroOcf fs2 b id).1 = .error (.msg ("unable to create avro ocf sink file " ++
        p.display ++ " : File exists (os error 17)")) ∧
      (buildAvroOcf fs2 b id).2.1 = fs2) := by
  rcases hext : b.path.extension with _ | ext <;>
      rw [hext] at hp <;> subst hp <;>
      refine ⟨fun hin => ?_, fun c fs2 evs hok => ?_⟩
  · simp only [buildAvroOcf, hstem, hext]
    rw [if_pos hin]
    exact ⟨rfl, rfl⟩
  · simp only [buildAvroOcf, hstem, hext] at hok ⊢
    split at hok
    · exact absurd hok (by simp)
    · simp only [Prod.mk.injEq] at hok
      obtain ⟨-, h2, -⟩ := hok
      rw [← h2, if_pos (List.mem_cons_self _ _)]
      exact ⟨rfl, rfl⟩
  · simp only [buildAvroOcf, hstem, hext]
    rw [if_pos hin]
    exact ⟨rfl, rfl⟩
  · simp only [buildAvroOcf, hstem, hext] at hok ⊢
    split at hok
    · exact absurd hok (by simp)
    · simp only [Prod.mk.injEq] at hok
      obtain ⟨-, h2, -⟩ := hok
      rw [← h2, if_pos (List.mem_cons_self _ _)]
      exact ⟨rfl, rfl⟩

/-- Witness for C7: after a successful build claims `/out/data-3-x.avro`,
a second identical build fails and creates no file. -/
theorem c7_witness :
    (buildAvroOcf [pathF] bldrF 3).1 =
      .error (.msg ("unable to create avro ocf sink file " ++ pathF.display ++
        " : File exists (os error 17)")) ∧
    (buildAvroOcf [pathF] bldrF 3).2.1 = [pathF] :=
  (c7_file_already_exists [] bldrF 3 "data" pathF (by decide) (by decide)).2
    (.avroOcf connF) [pathF] [.openCreateNewAppend pathF] (by decide)

/-- Claim C8: the derived topic name of a successful broker-variant build
is the deterministic function `<prefix>-<sinkIdentifier>-<suffix>` of the
builder prefix, the sink identifier, and the builder suffix. -/
theorem c8_topic_name_deterministic (env : KafkaEnv) (b : KafkaSinkConnectorBuilder)
    (id : GlobalId) (c : KafkaSinkConnector)
    (h : (buildKafka env b id).1 = .ok (.kafka c)) :
    c.topic = KafkaSinkConnectorBuilder.topicPrefix b ++ "-" ++ GlobalId.render id ++ "-" ++
      b.topicSuffix := by
  obtain ⟨kid, vid, hreg, hcase⟩ := buildKafka_ok env b id (.kafka c) h
  rcases hcase with ⟨-, hconn, -⟩ | ⟨cvs, ckid, cid, -, -, hconn, -⟩ <;>
  · simp only [SinkConnector.kafka.injEq] at hconn
    rw [hconn]
    rfl

/-- Witness for C8: prefix `p`, identifier `7`, suffix `s` yields topic
name `p-7-s`. -/
theorem c8_witness :
    (buildKafka envOk bldrK 7).1 = .ok (.kafka connW) ∧ connW.topic = "p-7-s" :=
  ⟨by decide, (c8_topic_name_deterministic envOk bldrK 7 connW (by decide)).trans (by decide)⟩

/-- Claim C9: a successful registration published the value schema under
`<topic>-value` (returning its id), published the key schema, when
supplied, afterwards under `<topic>-key` (returning its id), and performed
no key-schema publication when none was supplied. -/
theorem c9_schema_publication (env : KafkaEnv) (topic : String) (pc rf : Int)
    (vs : String) (ks : Option String) (kid : Option Int) (vid : Int)
    (h : (registerKafkaTopic env topic pc rf vs ks).1 = .ok (kid, vid)) :
    env.publishSchema (topic ++ "-value") vs = .ok vid ∧
    Event.publishSchema (topic ++ "-value") vs ∈ (registerKafkaTopic env topic pc rf vs ks).2 ∧
    (∀ k, ks = some k → ∃ i evs0 p r, kid = some i ∧
      env.publishSchema (topic ++ "-key") k = .ok i ∧
      (registerKafkaTopic env topic pc rf vs ks).2 = evs0 ++
        [.createTopic topic p r, .publishSchema (topic ++ "-value") vs,
          .publishSchema (topic ++ "-key") k]) ∧
    (ks = none → kid = none ∧
      ∀ sch, Event.publishSchema (topic ++ "-key") sch ∉
        (registerKafkaTopic env topic pc rf vs ks).2) := by
  obtain ⟨pc', rf', hres, hcp, htr⟩ := registerKafkaTopic_ok env topic pc rf vs ks kid vid h
  obtain ⟨hpv, hshape⟩ := createAndPublish_ok env topic pc' rf' vs ks kid vid hcp
  refine ⟨hpv, ?_, ?_, ?_⟩
  · rw [htr]
    rcases hshape with ⟨-, -, h2⟩ | ⟨k, i, -, -, -, h2⟩ <;> rw [h2] <;> simp
  · intro k hk
    rcases hshape with ⟨hnone, -, -⟩ | ⟨k2, i, hk2, hkid, hpk, h2⟩
    · rw [hk] at hnone
      exact absurd hnone (by simp)
    · rw [hk] at hk2
      have hkk : k = k2 := Option.some.inj hk2
      subst hkk
      exact ⟨i, (resolveDefaults env topic pc rf).2, pc', rf', hkid, hpk, by rw [htr, h2]⟩
  · intro hk
    rcases hshape with ⟨-, hkid, -⟩ | ⟨k2, i, hk2, -, -, -⟩
    · refine ⟨hkid, fun sch hmem => ?_⟩
      rcases registerKafkaTopic_publish_mem env topic pc rf vs ks _ sch hmem with
        ⟨hsubj, -⟩ | ⟨k3, hk3, -, -⟩
      · exact absurd hsubj (string_append_right_ne topic "-key" "-value" (by decide))
      · rw [hk] at hk3
        exact absurd hk3 (by simp)
    · rw [hk] at hk2
      exact absurd hk2 (by simp)

/-- Witness for C9 at a concrete registration with a key schema: both
subjects are published. -/
theorem c9_witness :
    envOk.publishSchema ("t" ++ "-value") "v" = .ok 42 ∧
    Event.publishSchema ("t" ++ "-value") "v" ∈
      (registerKafkaTopic envOk "t" 1 1 "v" (some "k")).2 ∧
    Event.publishSchema ("t" ++ "-key") "k" ∈
      (registerKafkaTopic envOk "t" 1 1 "v" (some "k")).2 := by
  obtain ⟨h1, h2, h3, -⟩ := c9_schema_publication envOk "t" 1 1 "v" (some "k")
    (some 42) 42 (by decide)
  obtain ⟨i, evs0, p, r, -, -, htr⟩ := h3 "k" rfl
  refine ⟨h1, h2, ?_⟩
  rw [htr]
  simp

/-- Claim C10: when admin-client construction fails, the broker-variant
build panics (`expect`, line 186) with `creating admin client failed`
instead of returning an error value. -/
theorem c10_admin_client_failure_panics (env : KafkaEnv) (b : KafkaSinkConnectorBuilder)
    (id : GlobalId) (e : String) (h : env.createAdminClient = .error e) :
    buildKafka env b id = (.panic "creating admin client failed", []) ∧
    ∀ err, (buildKafka env b id).1 ≠ BuildOutcome.error err := by
  have hb : buildKafka env b id = (.panic "creating admin client failed", []) := by
    unfold buildKafka
    rw [h]
  exact ⟨hb, fun err => by rw [hb]; simp⟩

/-- Witness for C10 at a concrete failing client configuration. -/
theorem c10_witness :
    buildKafka envPanic bldrK 7 = (.panic "creating admin client failed", []) ∧
    (buildKafka envPanic bldrK 7).1 ≠ BuildOutcome.error (.msg "bad client config") := by
  obtain ⟨h1, h2⟩ := c10_admin_client_failure_panics envPanic bldrK 7 "bad client config" rfl
  exact ⟨h1, h2 _⟩

end SinkConnector
